import Mathlib

/-!
Shallow embedding of the firecracker-python repository (myugan/firecracker-python):
`firecracker/config.py`, `firecracker/microvm.py`, `firecracker/network.py`,
`firecracker/utils.py`. Python values are modelled by `PyVal`, Python exceptions by
`PyErr`; operating-system state consulted by the code (filesystem, process table,
netlink, the nftables rule engine) is modelled by explicit environment records, and
host mutations by explicit action traces. Machine integers do not occur; all Python
ints are unbounded, as are Lean `Nat`/`Int`.
-/

/-- A Python runtime value as used by the configuration and networking code:
strings, ints, booleans, `None`, and the nested `{prefix: {addr, len}}` JSON object
that nftables match expressions use as a right-hand side. -/
inductive PyVal where
  | str (s : String)
  | int (n : Int)
  | bool (b : Bool)
  | none
  | prefixV (addr : PyVal) (len : Nat)
  deriving DecidableEq, Repr

/-- The exception kinds raised by the embedded code: Python builtins
(`AttributeError`, `TypeError`, `ValueError`) and the library exception classes of
`firecracker/exceptions.py`. -/
inductive PyErr where
  | attributeError (msg : String)
  | typeError (msg : String)
  | valueError (msg : String)
  | configurationError (msg : String)
  | processError (msg : String)
  | apiError (msg : String)
  | vmmError (msg : String)
  | networkError (msg : String)
  | exception (msg : String)
  deriving DecidableEq, Repr

/-- Python `str()` of an exception: its message. -/
def pyErrStr : PyErr → String
  | .attributeError m => m
  | .typeError m => m
  | .valueError m => m
  | .configurationError m => m
  | .processError m => m
  | .apiError m => m
  | .vmmError m => m
  | .networkError m => m
  | .exception m => m

/-- Python `str()` of a `PyVal` (enough for the f-strings in the embedded code). -/
def pyStr : PyVal → String
  | .str s => s
  | .int n => toString n
  | .bool b => if b then "True" else "False"
  | .none => "None"
  | .prefixV a l => s!"(prefix {pyStr a}/{l})"

/-- Python truthiness of a `PyVal`. -/
def pyTruthy : PyVal → Bool
  | .str s => !s.isEmpty
  | .int n => n != 0
  | .bool b => b
  | .none => false
  | .prefixV _ _ => true

/-- The Python type name of a `PyVal`, for `AttributeError` messages. -/
def pyTypeName : PyVal → String
  | .str _ => "str"
  | .int _ => "int"
  | .bool _ => "bool"
  | .none => "NoneType"
  | .prefixV _ _ => "dict"

/-- `os.path.basename`: the part of a path after the last slash. -/
def osPathBasename (s : String) : String :=
  ⟨(s.data.reverse.takeWhile (fun c => c ≠ '/')).reverse⟩

/-! ## `MicroVM._boot_args` (microvm.py lines 454-467)

The property reads the instance attributes `_mmds_enabled`, `_mmds_ip`, `_ip_addr`,
`_gateway_ip`, `_hostname`, `_iface_name`; they are passed here as arguments. -/

/-- `MicroVM._boot_args`: the Python property, translated literally (including the
trailing space of each fragment). -/
def boot_args (mmds_enabled : Bool) (mmds_ip ip_addr gateway_ip hostname iface_name : String) :
    String :=
  if mmds_enabled then
    "console=ttyS0 reboot=k panic=1 pci=off " ++
      s!"ds=nocloud-net;s=http://{mmds_ip}/latest/ " ++
      s!"ip={ip_addr}::{gateway_ip}:255.255.255.0:{hostname}:{iface_name}:off "
  else
    "console=ttyS0 reboot=k panic=1 pci=off " ++
      s!"ip={ip_addr}::{gateway_ip}:255.255.255.0:{hostname}:{iface_name}:off "

/-! ## `MicroVM._spawn` readiness poll (microvm.py lines 608-622)

The loop after the screen process has been started:
```
max_retries = 3
retries = 0
while retries < max_retries:
    if not psutil.pid_exists(int(screen_pid)):
        raise ProcessError("Firecracker process is not running")
    if os.path.exists(self._socket_file):
        return Api(self._socket_file)
    retries += 1
    time.sleep(0.5)
raise APIError(f"Failed to connect to the API socket after {max_retries} attempts")
```
The environment is a pair of oracles indexed by the attempt number: whether
`psutil.pid_exists` reports the screen pid alive at that attempt, and whether
`os.path.exists` reports the socket file present at that attempt. -/

/-- Observable events of the readiness poll: the liveness check, the socket-file
check, and `time.sleep(0.5)` (recorded in milliseconds). -/
inductive SpawnAction where
  | checkPid (attempt : Nat)
  | checkSocket (attempt : Nat)
  | sleepMs (ms : Nat)
  deriving DecidableEq, Repr

/-- Outcome of the readiness poll: the bound API client (identified by the attempt
index at which the socket appeared), or the raised exception. -/
inductive SpawnOutcome where
  | apiBound (attempt : Nat)
  | processError (msg : String)
  | apiError (msg : String)
  deriving DecidableEq, Repr

/-- One pass of the `while retries < max_retries` loop of `MicroVM._spawn`. -/
def spawnPollAux (pidAlive socketExists : Nat → Bool) (maxRetries : Nat) :
    Nat → List SpawnAction → SpawnOutcome × List SpawnAction
  | retries, trace =>
    if h : retries < maxRetries then
      let trace := trace ++ [.checkPid retries]
      if pidAlive retries then
        let trace := trace ++ [.checkSocket retries]
        if socketExists retries then (.apiBound retries, trace)
        else spawnPollAux pidAlive socketExists maxRetries (retries + 1)
          (trace ++ [.sleepMs 500])
      else (.processError "Firecracker process is not running", trace)
    else (.apiError s!"Failed to connect to the API socket after {maxRetries} attempts", trace)
  termination_by retries => maxRetries - retries

/-- The readiness poll of `MicroVM._spawn` with the constants of the source
(`max_retries = 3`, initial `retries = 0`). -/
def spawnPoll (pidAlive socketExists : Nat → Bool) : SpawnOutcome × List SpawnAction :=
  spawnPollAux pidAlive socketExists 3 0 []

/-! ## `NetworkManager.get_gateway_ip` (network.py lines 44-74)

The source delegates address parsing and printing to the CPython stdlib
`ipaddress` module.  The functions below embed the relevant stdlib semantics
(`IPv4Address`/`IPv6Address` string parsing, `.exploded`, `str()`): dotted-quad
IPv4 with no leading zeros, RFC 4291 IPv6 text forms including `::` compression
and an embedded IPv4 tail, lowercase-hex formatting with longest-zero-run
compression.  RFC 4007 zone suffixes (`%zone`) are not modelled. -/

/-- ASCII decimal digit test (Python `str.isdigit` restricted to ASCII, as the
stdlib octet parser requires). -/
def isPyDecDigit (c : Char) : Bool := '0' ≤ c && c ≤ '9'

/-- Membership in the stdlib hextet alphabet `0123456789ABCDEFabcdef`. -/
def isPyHexDigit (c : Char) : Bool :=
  ('0' ≤ c && c ≤ '9') || ('a' ≤ c && c ≤ 'f') || ('A' ≤ c && c ≤ 'F')

/-- Numeric value of a decimal digit character. -/
def decVal (c : Char) : Nat := c.toNat - 48

/-- Numeric value of a hex digit character (either case). -/
def hexVal (c : Char) : Nat :=
  if c ≤ '9' then c.toNat - 48 else if c ≤ 'F' then c.toNat - 55 else c.toNat - 87

/-- Lowercase hex digit character for a value below 16 (Python `%x`). -/
def hexChar (d : Nat) : Char := if d < 10 then Char.ofNat (48 + d) else Char.ofNat (87 + d)

/-- Stdlib `IPv4Address._parse_octet`: a nonempty ASCII-decimal string of at most
3 characters, value at most 255, with no leading zero. -/
def parseOctet (s : List Char) : Option Nat :=
  if s.isEmpty then Option.none
  else if !s.all isPyDecDigit then Option.none
  else if s.length > 3 then Option.none
  else
    let v := s.foldl (fun a c => a * 10 + decVal c) 0
    if 1 < s.length && s.headD ' ' == '0' then Option.none
    else if v > 255 then Option.none
    else some v

/-- Stdlib `IPv4Address._ip_int_from_string`: split on `.`, exactly four octets,
assembled big-endian. -/
def parseIPv4 (s : List Char) : Option Nat :=
  match s.splitOn '.' with
  | [a, b, c, d] =>
    match parseOctet a, parseOctet b, parseOctet c, parseOctet d with
    | some x, some y, some z, some w => some (((x * 256 + y) * 256 + z) * 256 + w)
    | _, _, _, _ => Option.none
  | _ => Option.none

/-- Stdlib `IPv6Address._parse_hextet`: only hex digits, at most 4 of them,
nonempty (`int('', 16)` raises), value read in base 16. -/
def parseHextet (s : List Char) : Option Nat :=
  if !s.all isPyHexDigit then Option.none
  else if s.length > 4 then Option.none
  else if s.isEmpty then Option.none
  else some (s.foldl (fun a c => a * 16 + hexVal c) 0)

/-- Python `%x` of a value below 65536: lowercase hex, no padding. -/
def hexNoPad (n : Nat) : List Char :=
  if n = 0 then ['0']
  else ([n / 4096 % 16, n / 256 % 16, n / 16 % 16, n % 16].dropWhile (fun d => d = 0)).map hexChar

/-- The scan of `_ip_int_from_string` for the position of `::`: walk the inner
parts (indices 1 to length-2) looking for empty parts; a second empty part is an
error (`Option.none`); otherwise report the index of the single empty part, if any. -/
def findSkipIndex : List (List Char) → Nat → Option Nat → Option (Option Nat)
  | [], _, acc => some acc
  | p :: ps, i, acc =>
    if p.isEmpty then
      match acc with
      | some _ => Option.none
      | Option.none => findSkipIndex ps (i + 1) (some i)
    else findSkipIndex ps (i + 1) acc

/-- The hextet-accumulation loop of `_ip_int_from_string`:
`ip_int = (ip_int << 16) | parse_hextet(part)` over the given parts. -/
def foldHextets (acc : Nat) : List (List Char) → Option Nat
  | [] => some acc
  | p :: ps =>
    match parseHextet p with
    | some h => foldHextets ((acc <<< 16) ||| h) ps
    | Option.none => Option.none

/-- Stdlib `IPv6Address._ip_int_from_string` on the colon-split parts: minimum 3
parts, embedded-IPv4 replacement of a dotted last part, maximum 9 parts, at most
one `::` (with the leading/trailing-colon rules), then the high parts, the
skipped zero hextets, and the low parts assembled big-endian. -/
def parseIPv6Parts (parts0 : List (List Char)) : Option Nat :=
  if parts0.length < 3 then Option.none
  else
    let lastPart := (parts0.getLast?).getD []
    let partsM : Option (List (List Char)) :=
      if lastPart.contains '.' then
        match parseIPv4 lastPart with
        | some v4 => some (parts0.dropLast ++ [hexNoPad (v4 >>> 16), hexNoPad (v4 &&& 0xFFFF)])
        | Option.none => Option.none
      else some parts0
    match partsM with
    | Option.none => Option.none
    | some parts =>
      if parts.length > 9 then Option.none
      else
        match findSkipIndex ((parts.drop 1).dropLast) 1 Option.none with
        | Option.none => Option.none
        | some (some skipIndex) =>
          let headEmpty := (parts.headD []).isEmpty
          let lastEmpty := ((parts.getLast?).getD []).isEmpty
          let hi := if headEmpty then skipIndex - 1 else skipIndex
          let lo0 := parts.length - skipIndex - 1
          let lo := if lastEmpty then lo0 - 1 else lo0
          if headEmpty && hi ≠ 0 then Option.none
          else if lastEmpty && lo ≠ 0 then Option.none
          else
            let skipped : Int := 8 - ((hi : Int) + (lo : Int))
            if skipped < 1 then Option.none
            else
              match foldHextets 0 (parts.take hi) with
              | some vh => foldHextets (vh <<< (16 * skipped.toNat)) (parts.drop (parts.length - lo))
              | Option.none => Option.none
        | some Option.none =>
          if parts.length ≠ 8 then Option.none
          else if (parts.headD []).isEmpty then Option.none
          else if ((parts.getLast?).getD []).isEmpty then Option.none
          else foldHextets 0 parts

/-- Stdlib IPv6 string parsing: nonempty, split on `:`, then `parseIPv6Parts`. -/
def parseIPv6 (s : List Char) : Option Nat :=
  if s.isEmpty then Option.none else parseIPv6Parts (s.splitOn ':')

/-- One group of `.exploded`: Python `%04x`, four lowercase hex digits. -/
def hex4 (g : Nat) : List Char :=
  [hexChar (g / 4096 % 16), hexChar (g / 256 % 16), hexChar (g / 16 % 16), hexChar (g % 16)]

/-- The eight `%04x` groups of `IPv6Address.exploded`, big-endian. -/
def explodedSegments (n : Nat) : List (List Char) :=
  (List.range 8).map (fun i => hex4 ((n >>> (16 * (7 - i))) &&& 0xFFFF))

/-- The eight `%x` groups used by `str(IPv6Address)`, big-endian. -/
def ipv6Hextets (n : Nat) : List (List Char) :=
  (List.range 8).map (fun i => hexNoPad ((n >>> (16 * (7 - i))) &&& 0xFFFF))

/-- The best-run scan of stdlib `_compress_hextets`: longest (leftmost on ties)
run of `"0"` groups, tracked with the `-1` sentinels of the source. -/
def bestZeroRunAux : List (List Char) → Nat → Int → Nat → Int → Nat → Int × Nat
  | [], _, bs, bl, _, _ => (bs, bl)
  | h :: t, ix, bs, bl, cs, cl =>
    if h = ['0'] then
      let cs2 := if cs = -1 then (ix : Int) else cs
      let cl2 := cl + 1
      if cl2 > bl then bestZeroRunAux t (ix + 1) cs2 cl2 cs2 cl2
      else bestZeroRunAux t (ix + 1) bs bl cs2 cl2
    else bestZeroRunAux t (ix + 1) bs bl (-1) 0

/-- Stdlib `_compress_hextets`: replace the best zero run (if longer than one
group) by an empty group, with the end/start padding of the source. -/
def compressHextets (hextets : List (List Char)) : List (List Char) :=
  let r := bestZeroRunAux hextets 0 (-1) 0 (-1) 0
  if r.2 > 1 then
    let bs := r.1.toNat
    let hx := if bs + r.2 = hextets.length then hextets ++ [[]] else hextets
    let out := hx.take bs ++ [[]] ++ hx.drop (bs + r.2)
    if bs = 0 then [] :: out else out
  else hextets

/-- `str(IPv6Address)`: compressed lowercase-hex groups joined by colons. -/
def formatIPv6 (n : Nat) : List Char :=
  List.intercalate [':'] (compressHextets (ipv6Hextets n))

/-- `str(IPv4Address)`: dotted decimal, big-endian octets. -/
def formatIPv4 (m : Nat) : String :=
  s!"{m / 16777216 % 256}.{m / 65536 % 256}.{m / 256 % 256}.{m % 256}"

/-- `NetworkManager.get_gateway_ip`, translated from network.py lines 44-74: try
IPv4, masking in the gateway octet with `(int(ip_obj) & 0xFFFFFF00) | 1`; else try
IPv6, taking `.exploded`, splitting on `:`, overwriting the last segment with
`"1"`, re-parsing and printing; parsing failure is a `NetworkError` (the stdlib
raises a plain `ValueError`, caught by the broad handler of the source). -/
def get_gateway_ip (ip : String) : Except PyErr String :=
  match parseIPv4 ip.data with
  | some n => .ok (formatIPv4 ((n &&& 0xFFFFFF00) ||| 1))
  | Option.none =>
    match parseIPv6 ip.data with
    | some n =>
      let segments := (List.intercalate [':'] (explodedSegments n)).splitOn ':'
      let segments2 := segments.dropLast ++ [['1']]
      match parseIPv6 (List.intercalate [':'] segments2) with
      | some m => .ok ⟨formatIPv6 m⟩
      | Option.none => .error (.networkError s!"Invalid IP address format: {ip}")
    | Option.none =>
      .error (.networkError s!"Failed to derive gateway IP: {ip} does not appear to be an IPv4 or IPv6 address")

/-! ## nftables rules and the `NetworkManager` port-forward / tap operations

Rules are modelled at the level of the JSON dictionaries the source builds and
inspects: a rule has a family, table, chain, numeric handle, and a list of match
expressions.  The rule engine (`Nftables.json_cmd` / `Nftables.cmd`) and netlink
(`pyroute2.IPRoute`) are external; submitted commands are recorded in traces, and
the rule listing the source reads back is provided by the environment. -/

/-- One entry of a rule's `expr` list, as the source builds and inspects them:
`{'match': {'op', 'left': {'payload': {'protocol', 'field'}}, 'right'}}`,
`{'match': {'op', 'left': {'meta': {'key'}}, 'right'}}`, `{'dnat': {'addr',
'port'}}`, `{'masquerade': None}`, `{'counter': ...}`, `{'accept': None}`. -/
inductive NftExpr where
  | matchPayload (op : String) (protocol : PyVal) (field : String) (right : PyVal)
  | matchMeta (op : String) (key : String) (right : PyVal)
  | dnat (addr : PyVal) (port : PyVal)
  | masquerade
  | counter
  | accept
  deriving DecidableEq, Repr

/-- A rule dictionary: `{'rule': {'family', 'table', 'chain', 'handle', 'expr'}}`. -/
structure NftRule where
  family : String
  table : String
  chain : String
  handle : Nat
  expr : List NftExpr
  deriving DecidableEq, Repr

/-- An object of an `nftables` JSON command payload: a table declaration, a chain
declaration, or a rule. -/
inductive NftObject where
  | tableDecl (family name : String)
  | chainDecl (family table name : String)
  | rule (r : NftRule)
  deriving DecidableEq, Repr

/-- `NetworkManager.add_port_forward` (network.py lines 480-648): the JSON payload
submitted through `json_cmd`, translated object by object (the table, the chain
declarations, the postrouting masquerade rule for `saddr = dest_ip/32` out of
`eth0`, and the prerouting rule matching `daddr = host_ip`, `dport = host_port`
under `protocol`, with `dnat` to `dest_ip:dest_port`).  The parameter order is
that of the Python signature `(host_ip, host_port, dest_ip, dest_port,
protocol="tcp")`. -/
def add_port_forward (host_ip host_port dest_ip dest_port : PyVal)
    (protocol : PyVal := .str "tcp") : List NftObject :=
  [ .tableDecl "ip" "nat",
    .chainDecl "ip" "nat" "PREROUTING",
    .chainDecl "ip" "nat" "OUTPUT",
    .chainDecl "ip" "nat" "POSTROUTING",
    .chainDecl "ip" "nat" "postrouting",
    .chainDecl "ip" "nat" "prerouting",
    .rule { family := "ip", table := "nat", chain := "postrouting", handle := 14,
            expr := [ .matchMeta "==" "oif" (.str "eth0"),
                      .matchPayload "==" (.str "ip") "saddr" (.prefixV dest_ip 32),
                      .masquerade ] },
    .rule { family := "ip", table := "nat", chain := "prerouting", handle := 13,
            expr := [ .matchPayload "==" (.str "ip") "daddr" host_ip,
                      .matchPayload "==" protocol "dport" host_port,
                      .dnat dest_ip dest_port ] } ]

/-- The prerouting-rule test of `NetworkManager.get_port_forward_handles`
(network.py lines 418-445): chain `prerouting` in table `nat`, a `daddr` match
equal to `host_ip`, a `dport` match equal to `host_port`, and a `dnat` to
`dest_ip`/`dest_port`. -/
def preroutingMatches (r : NftRule) (host_ip host_port dest_ip dest_port : PyVal) : Bool :=
  r.family == "ip" && r.table == "nat" && r.chain == "prerouting" &&
  (r.expr.any fun e => match e with
    | .matchPayload op _ field right => op == "==" && field == "daddr" && right == host_ip
    | _ => false) &&
  (r.expr.any fun e => match e with
    | .matchPayload op _ field right => op == "==" && field == "dport" && right == host_port
    | _ => false) &&
  (r.expr.any fun e => match e with
    | .dnat addr port => addr == dest_ip && port == dest_port
    | _ => false)

/-- The postrouting-rule test of `NetworkManager.get_port_forward_handles`
(network.py lines 447-470): chain `postrouting` or `POSTROUTING` in table `nat`,
a `saddr` match equal to `dest_ip` (directly or as a `/32` prefix object), and a
`masquerade` verdict. -/
def postroutingMatches (r : NftRule) (dest_ip : PyVal) : Bool :=
  r.family == "ip" && r.table == "nat" &&
  (r.chain == "postrouting" || r.chain == "POSTROUTING") &&
  (r.expr.any fun e => match e with
    | .matchPayload op _ field right =>
      op == "==" && field == "saddr" &&
      (right == dest_ip ||
        (match right with
         | .prefixV addr _ => addr == dest_ip
         | _ => false))
    | _ => false) &&
  (r.expr.any fun e => match e with
    | .masquerade => true
    | _ => false)

/-- `NetworkManager.get_port_forward_handles` (network.py lines 362-478): scan
the `nat` table listing and record the handles of the matching prerouting and
postrouting rules (a later match overwrites an earlier one, as dict assignment
does).  The result models the `rules` dict: `(prerouting handle, postrouting
handle)`, either possibly absent. -/
def get_port_forward_handles (listing : List NftRule)
    (host_ip host_port dest_ip dest_port : PyVal) : Option Nat × Option Nat :=
  listing.foldl
    (fun acc r =>
      if preroutingMatches r host_ip host_port dest_ip dest_port then (some r.handle, acc.2)
      else if postroutingMatches r dest_ip then (acc.1, some r.handle)
      else acc)
    (Option.none, Option.none)

/-- Host-mutating commands issued by the tap / port-forward teardown paths:
netlink link and address operations and `nft` delete commands. -/
inductive NetAction where
  | linkAdd (name : String)
  | linkSetUp (name : String)
  | linkSetMaster (name bridge : String)
  | addrAdd (name address : String)
  | nftAddNatRules (tap iface : String)
  | nftEnsureMasquerade (iface : String)
  | nftDeleteRule (table chain : String) (handle : Nat)
  | linkDel (name : String)
  deriving DecidableEq, Repr

/-- `NetworkManager.delete_port_forward` (network.py lines 693-736): look the
handles up by content; if the dict is empty return at once, otherwise issue
`delete rule nat prerouting handle N` and `delete rule nat <chain> handle N`.
The source picks `POSTROUTING` only when the lookup populated a
`postrouting_chain` key, which it never does, so the chain is always
`postrouting` (the unreachable branch noted by spec section 9). -/
def delete_port_forward (listing : List NftRule)
    (host_ip host_port dest_ip dest_port : PyVal) : Except PyErr Unit × List NetAction :=
  let rules := get_port_forward_handles listing host_ip host_port dest_ip dest_port
  if rules.1 = Option.none ∧ rules.2 = Option.none then (.ok (), [])
  else
    let preActs := match rules.1 with
      | some h => [NetAction.nftDeleteRule "nat" "prerouting" h]
      | Option.none => []
    let postActs := match rules.2 with
      | some h => [NetAction.nftDeleteRule "nat" "postrouting" h]
      | Option.none => []
    (.ok (), preActs ++ postActs)

/-- The host state consulted by the tap lifecycle: whether a link of a given name
exists (`IPRoute.link_lookup`, used by `check_tap_device`). -/
structure NetEnv where
  tapExists : String → Bool

/-- `NetworkManager.create_tap` (network.py lines 738-789).  Empty strings stand
for the `None` defaults of the Python signature.  The guard of lines 752-756 runs
before the `try` block, hence before any host mutation; inside the body the
device-creation, bridge-attachment, NAT-rule and address steps are recorded in
order.  Environment-level failures of the individual netlink calls (and the
`cleanup` they would trigger) are not modelled: every issued command succeeds. -/
def create_tap (env : NetEnv) (name iface_name gateway_ip : String) (bridge : Bool)
    (bridge_name : String := "docker0") : Except PyErr Unit × List NetAction :=
  if name.isEmpty || (!iface_name.isEmpty && iface_name.length > 16) then
    if name.isEmpty then (.error (.configurationError "Tap device name is required"), [])
    else (.error (.valueError "iface_name must not exceed 16 characters"), [])
  else
    if !env.tapExists name then
      let acts := [NetAction.linkAdd name]
      let acts := acts ++ (if bridge then [NetAction.linkSetMaster iface_name bridge_name] else [])
      let acts := acts ++ [NetAction.linkSetUp name]
      let acts := acts ++
        (if !bridge then [NetAction.nftAddNatRules name iface_name,
                          NetAction.nftEnsureMasquerade iface_name] else [])
      let acts := acts ++ (if !gateway_ip.isEmpty then [NetAction.addrAdd name gateway_ip] else [])
      (.ok (), acts)
    else (.ok (), [])

/-- `NetworkManager.delete_tap` (network.py lines 813-824): remove the link only
if `check_tap_device` reports it present; otherwise do nothing. -/
def delete_tap (env : NetEnv) (name : String) : Except PyErr Unit × List NetAction :=
  if env.tapExists name then (.ok (), [NetAction.linkDel name])
  else (.ok (), [])

/-! ## `utils.py` validators (lines 75-120)

`validate_hostname` implements the RFC 1123 single-label regex of the source;
`validate_ip_address` follows the source logic, with the C-library call
`socket.inet_aton` supplied as an environment oracle. -/

/-- ASCII letter-or-digit test, the character class of the hostname regex. -/
def isAlnumPy (c : Char) : Bool :=
  ('a' ≤ c && c ≤ 'z') || ('A' ≤ c && c ≤ 'Z') || ('0' ≤ c && c ≤ '9')

/-- `utils.validate_hostname`: full match against
`[a-zA-Z0-9]([a-zA-Z0-9-]{0,61}[a-zA-Z0-9])?`. -/
def validate_hostname (h : String) : Except PyErr Unit :=
  let ok := match h.data with
    | [] => false
    | c :: rest =>
      isAlnumPy c &&
        (rest.isEmpty ||
          (rest.length ≤ 62 && isAlnumPy ((rest.getLast?).getD ' ') &&
            rest.dropLast.all (fun d => isAlnumPy d || d = '-')))
  if ok then .ok () else .error (.valueError s!"Invalid hostname: {h}")

/-- Python `int(str)` for the plain decimal strings `validate_ip_address` splits
out: optional surrounding spaces and sign, then decimal digits. -/
def parseIntPy (s : List Char) : Option Int :=
  let t := (s.dropWhile (fun c => c = ' ')).reverse.dropWhile (fun c => c = ' ') |>.reverse
  let core : Option (Bool × List Char) := match t with
    | '-' :: rest => some (true, rest)
    | '+' :: rest => some (false, rest)
    | rest => some (false, rest)
  match core with
  | some (neg, ds) =>
    if ds.isEmpty || !ds.all isPyDecDigit then Option.none
    else
      let v : Int := ds.foldl (fun a c => a * 10 + (decVal c : Int)) 0
      some (if neg then -v else v)
  | Option.none => Option.none

/-- `utils.validate_ip_address`: empty check, `socket.inet_aton` (oracle),
exactly four dot-parts, each an int in 0..255, and no reserved `.0` suffix.
`int()` failures and the oracle's rejection surface as the generic catch-all
`Exception` of the source. -/
def validate_ip_address (inetAtonOk : String → Bool) (ip : String) : Except PyErr Unit :=
  if ip.isEmpty then .error (.exception "IP address cannot be empty")
  else if !inetAtonOk ip then .error (.exception s!"Invalid IP address: {ip}")
  else
    let parts := ip.data.splitOn '.'
    if parts.length ≠ 4 then .error (.exception s!"Invalid IP address format: {ip}")
    else
      let vals := parts.map parseIntPy
      if vals.any (fun v => v = Option.none) then .error (.exception s!"Invalid IP address: {ip}")
      else if vals.any (fun v => match v with
          | some n => n < 0 || 255 < n
          | Option.none => false) then
        .error (.exception "IP address contains invalid octet")
      else if ((parts.getLast?).getD []) = ['0'] then
        .error (.exception s!"IP address with .0 suffix is reserved: {ip}")
      else .ok ()

/-! ## `MicroVMConfig` (config.py lines 5-30) and the kwargs merge

The dataclass instance is modelled as an association list from attribute name to
value, with exactly the fields the dataclass defines (class-level attributes such
as methods and dunders of the underlying `object` are not modelled).  `hasattr` /
`setattr` / `getattr` act on that list. -/

/-- The `MicroVMConfig` dataclass defaults, field for field (`kernel_file` is
`os.path.join(data_path, "vmlinux")` evaluated at class-definition time). -/
def microVMConfigDefaults : List (String × PyVal) :=
  [ ("data_path", .str "/var/lib/firecracker"),
    ("binary_path", .str "/usr/local/bin/firecracker"),
    ("kernel_file", .str "/var/lib/firecracker/vmlinux"),
    ("initrd_file", .none),
    ("init_file", .str "/sbin/init"),
    ("base_rootfs", .none),
    ("overlayfs", .bool false),
    ("overlayfs_file", .none),
    ("ip_addr", .str "172.16.0.2"),
    ("bridge", .bool false),
    ("bridge_name", .str "docker0"),
    ("mmds_enabled", .bool false),
    ("mmds_ip", .str "169.254.169.254"),
    ("user_data", .none),
    ("vcpu", .int 1),
    ("memory", .int 512),
    ("hostname", .str "fc-vm"),
    ("verbose", .bool false),
    ("level", .str "INFO"),
    ("ssh_user", .str "root"),
    ("expose_ports", .bool false),
    ("host_port", .none),
    ("dest_port", .none) ]

/-- `hasattr(config, k)`. -/
def pyHasattr (obj : List (String × PyVal)) (k : String) : Bool :=
  obj.any (fun kv => kv.1 == k)

/-- `setattr(config, k, v)`: overwrite if present, append otherwise. -/
def pySetattr (obj : List (String × PyVal)) (k : String) (v : PyVal) :
    List (String × PyVal) :=
  if pyHasattr obj k then obj.map (fun kv => if kv.1 == k then (kv.1, v) else kv)
  else obj ++ [(k, v)]

/-- `getattr(config, k)`: the value, or `AttributeError` if the attribute is not
defined. -/
def pyGetattrConfig (obj : List (String × PyVal)) (k : String) : Except PyErr PyVal :=
  match obj.find? (fun kv => kv.1 == k) with
  | some kv => .ok kv.2
  | Option.none => .error (.attributeError s!"MicroVMConfig object has no attribute {k}")

/-- The kwargs merge of `MicroVM.__init__` (microvm.py lines 48-50):
`for key, value in kwargs.items(): if hasattr(self._config, key): setattr(...)`. -/
def applyKwargs (cfg : List (String × PyVal)) (kwargs : List (String × PyVal)) :
    List (String × PyVal) :=
  kwargs.foldl (fun c kv => if pyHasattr c kv.1 then pySetattr c kv.1 kv.2 else c) cfg

/-! ## `MicroVM.__init__` (microvm.py lines 28-107) -/

/-- Host state consulted during construction: the default-route interface name
(line 79), the two file-existence checks (lines 103-106), and the
`socket.inet_aton` oracle used by IP validation (line 101). -/
structure InitEnv where
  ifaceName : String
  kernelExists : Bool
  rootfsExists : Bool
  inetAtonOk : String → Bool

/-- The instance attributes a completed `MicroVM.__init__` would leave behind. -/
structure MicroVMRecord where
  microvmId : String
  socketFile : String
  hostname : PyVal
  kernelFile : PyVal
  rootfsFile : String
  vcpu : PyVal
  memSizeMib : PyVal
  mmdsEnabled : PyVal
  mmdsIp : PyVal
  ifaceName : String
  hostDevName : String
  ipAddr : PyVal
  gatewayIp : String
  bridge : PyVal
  bridgeName : PyVal
  portForwarding : PyVal
  hostPort : PyVal
  destPort : PyVal
  deriving DecidableEq, Repr

/-- `MicroVM.__init__`, step by step in source order.  `id` is the already-chosen
identifier (line 44; `generate_id()` randomness is external).  Reads of
attributes the dataclass does not define surface as `AttributeError`, as does
`.replace` on a non-string `base_rootfs` (line 67). -/
def microvmInit (env : InitEnv) (id : String) (kwargs : List (String × PyVal)) :
    Except PyErr MicroVMRecord := do
  let cfg := applyKwargs microVMConfigDefaults kwargs
  -- lines 53-57: logger and managers; only `verbose` is read
  let _verbose ← pyGetattrConfig cfg "verbose"
  -- line 60
  let dataPath ← pyGetattrConfig cfg "data_path"
  let socketFile := s!"{pyStr dataPath}/{id}/firecracker.socket"
  -- line 64
  let hostnameV ← pyGetattrConfig cfg "hostname"
  let hostname := if pyTruthy hostnameV then hostnameV else .str id
  -- lines 65-66
  let kernelFile ← pyGetattrConfig cfg "kernel_file"
  let baseRootfs ← pyGetattrConfig cfg "base_rootfs"
  -- line 67: os.path.basename(self._base_rootfs.replace('./', ''))
  let baseRootfsName ← match baseRootfs with
    | .str s => pure (osPathBasename (s.replace "./" ""))
    | v => throw (.attributeError s!"{pyTypeName v} object has no attribute replace")
  -- lines 68-71
  let vmmDir := s!"{pyStr dataPath}/{id}"
  let rootfsFile := s!"{vmmDir}/rootfs/{baseRootfsName}"
  -- lines 72-73: attributes `MicroVMConfig` does not define
  let vcpu ← pyGetattrConfig cfg "vcpu_count"
  let memSizeMib ← pyGetattrConfig cfg "mem_size_mib"
  -- lines 74-76
  let mmdsEnabled ← pyGetattrConfig cfg "mmds_enabled"
  let mmdsIp ← pyGetattrConfig cfg "mmds_ip"
  -- lines 79-84
  let ifaceName := env.ifaceName
  let hostDevName := s!"tap_{id}"
  let ipAddrV ← pyGetattrConfig cfg "ip_addr"
  let gatewayIp ← match ipAddrV with
    | .str s =>
      match get_gateway_ip s with
      | .ok g => pure g
      | .error e => throw e
    | _ => throw (.networkError "Failed to derive gateway IP")
  let bridge ← pyGetattrConfig cfg "bridge"
  let bridgeName ← pyGetattrConfig cfg "bridge_name"
  -- line 88: a third attribute `MicroVMConfig` does not define
  let portForwarding ← pyGetattrConfig cfg "port_forwarding"
  let hostPort ← pyGetattrConfig cfg "host_port"
  let destPort ← pyGetattrConfig cfg "dest_port"
  -- lines 93-96 (Python `bool` is an `int` subclass, hence passes `isinstance`)
  let vcpuInt : Int ← match vcpu with
    | .int n => pure n
    | .bool b => pure (if b then 1 else 0)
    | _ => throw (.valueError "vcpu must be a positive integer")
  if vcpuInt ≤ 0 then throw (.valueError "vcpu must be a positive integer")
  let memInt : Int ← match memSizeMib with
    | .int n => pure n
    | .bool b => pure (if b then 1 else 0)
    | _ => throw (.valueError "mem_size_mib must be valid")
  if memInt < 128 then throw (.valueError "mem_size_mib must be valid")
  -- lines 98-101
  if pyTruthy hostname then validate_hostname (pyStr hostname)
  if pyTruthy ipAddrV then validate_ip_address env.inetAtonOk (pyStr ipAddrV)
  -- lines 103-107
  if !env.kernelExists then
    throw (.configurationError s!"Kernel file not found at: {pyStr kernelFile}")
  if !env.rootfsExists then
    throw (.configurationError s!"Base root filesystem not found at: {pyStr baseRootfs}")
  return { microvmId := id, socketFile := socketFile, hostname := hostname,
           kernelFile := kernelFile, rootfsFile := rootfsFile, vcpu := vcpu,
           memSizeMib := memSizeMib, mmdsEnabled := mmdsEnabled, mmdsIp := mmdsIp,
           ifaceName := ifaceName, hostDevName := hostDevName, ipAddr := ipAddrV,
           gatewayIp := gatewayIp, bridge := bridge, bridgeName := bridgeName,
           portForwarding := portForwarding, hostPort := hostPort, destPort := destPort }

/-! ## Registry lifecycle state and `pause` / `resume` (microvm.py lines 208-254)

`VMMManager` lives in `firecracker/vmm.py`, which is not among the provided
sources; its callers in microvm.py are.  Its state-update entry point is
modelled from the spec below. -/

/-- The registry lifecycle states of spec section 3
(`Configuring → Running ⇄ Paused → Stopped`). -/
inductive VmState where
  | Configuring
  | Running
  | Paused
  | Stopped
  deriving DecidableEq, Repr

/-- One registry entry: identifier and lifecycle state (the further fields of the
spec - pid, socket path, IP, name - play no role in the claims). -/
structure RegistryEntry where
  id : String
  state : VmState
  deriving DecidableEq, Repr

/-- Modelled from the spec: `VMMManager.update_vmm_state` (firecracker/vmm.py is
not among the provided sources; only its callers in microvm.py are).  Spec
section 4.1: "`pause(id)` / `resume(id)`: transition the registry state to
`Paused`/`Running` via the control-plane lifecycle action"; the lifecycle-action
strings the callers pass are `"Paused"` and `"Resumed"` (the control-plane action
names), so `"Paused"` moves the entry to `Paused` and `"Resumed"` moves it to
`Running`.  An unknown id is an error, surfaced (spec: "errors are wrapped and
surfaced, not silently dropped"). -/
def update_vmm_state (reg : List RegistryEntry) (id : String) (action : String) :
    Except PyErr (List RegistryEntry) :=
  if reg.any (fun e => e.id == id) then
    let newState : Option VmState :=
      if action == "Paused" then some .Paused
      else if action == "Resumed" then some .Running
      else Option.none
    match newState with
    | some st => .ok (reg.map (fun e => if e.id == id then { e with state := st } else e))
    | Option.none => .error (.vmmError s!"Invalid state {action}")
  else .error (.vmmError s!"VMM with ID {id} not found")

/-- Result of `pause` / `resume`: the updated registry, the early-return message
for unexpected kwargs, or the wrapped `VMMError`. -/
inductive LifecycleResult where
  | updated (reg : List RegistryEntry)
  | message (s : String)
  | raised (e : PyErr)
  deriving DecidableEq, Repr

/-- `MicroVM.pause` (microvm.py lines 208-230): kwargs guard, id defaulting, then
`update_vmm_state(id, "Paused")`, exceptions re-wrapped as `VMMError(str(e))`. -/
def microvmPause (reg : List RegistryEntry) (selfId : String) (id? : Option String)
    (kwargs : List (String × PyVal)) : LifecycleResult :=
  match kwargs with
  | (k, _) :: _ => .message s!"Got an unexpected keyword argument {k}"
  | [] =>
    let id := id?.getD selfId
    match update_vmm_state reg id "Paused" with
    | .ok reg2 => .updated reg2
    | .error e => .raised (.vmmError (pyErrStr e))

/-- `MicroVM.resume` (microvm.py lines 232-254): kwargs guard, id defaulting, then
`update_vmm_state(id, "Resumed")`, exceptions re-wrapped as `VMMError(str(e))`. -/
def microvmResume (reg : List RegistryEntry) (selfId : String) (id? : Option String)
    (kwargs : List (String × PyVal)) : LifecycleResult :=
  match kwargs with
  | (k, _) :: _ => .message s!"Got an unexpected keyword argument {k}"
  | [] =>
    let id := id?.getD selfId
    match update_vmm_state reg id "Resumed" with
    | .ok reg2 => .updated reg2
    | .error e => .raised (.vmmError (pyErrStr e))

/-! ## `MicroVM.create` (microvm.py lines 166-206) -/

/-- The effectful steps of the creation path, in source order: `_spawn` (process
launch and readiness poll), the `_basic_config` calls, the `InstanceStart`
action, rollback, and the `finally` close of the API client. -/
inductive CreateAction where
  | spawnProcess
  | configureBootSource
  | configureRootDrive
  | configureResources
  | configureNetworkIface
  | configureMmds
  | instanceStart
  | cleanupResources
  | apiClose
  deriving DecidableEq, Repr

/-- Host state consulted by `create`: whether the socket file exists (line 172),
the ids in the registry listing (line 172), and whether the spawn/readiness
sequence succeeds. -/
structure CreateEnv where
  socketExists : Bool
  registryIds : List String
  spawnOk : Bool

/-- Result of `create`: an early-return message, the success message, or a raised
`VMMError`. -/
inductive CreateResult where
  | message (s : String)
  | raised (e : PyErr)
  deriving DecidableEq, Repr

/-- `MicroVM.create`: the kwargs guard, the conflict check of line 172 (which
returns before the `try`, so without reaching the `finally` close), then the
spawn/configure/start sequence with the `finally` close on every path through the
`try`.  A truthy `port_forwarding` would call the nonexistent method
`self._port_forward` (line 194) - an `AttributeError` wrapped as `VMMError` -
after `InstanceStart` has been issued. -/
def microvmCreate (env : CreateEnv) (selfId : String) (kwargs : List (String × PyVal))
    (mmdsEnabled portForwarding : Bool) : CreateResult × List CreateAction :=
  match kwargs with
  | (k, _) :: _ => (.message s!"Got an unexpected keyword argument {k}", [])
  | [] =>
    if env.socketExists || env.registryIds.contains selfId then
      (.message s!"VMM with ID {selfId} already exists", [])
    else if !env.spawnOk then
      (.raised (.vmmError s!"Failed to create VMM {selfId}: spawn failed"),
        [CreateAction.spawnProcess, .cleanupResources, .apiClose])
    else
      let baseActs := [CreateAction.spawnProcess, .configureBootSource, .configureRootDrive,
          .configureResources, .configureNetworkIface]
        ++ (if mmdsEnabled then [CreateAction.configureMmds] else [])
        ++ [CreateAction.instanceStart]
      if portForwarding then
        (.raised (.vmmError
            s!"Failed to create VMM {selfId}: MicroVM object has no attribute _port_forward"),
          baseActs ++ [CreateAction.apiClose])
      else
        (.message s!"VMM {selfId} is created successfully", baseActs ++ [CreateAction.apiClose])

/-! ## `MicroVM.port_forward` (microvm.py lines 394-431) -/

/-- State consulted by `port_forward`: the registry listing, `get_public_ip()`,
`get_vmm_ip_addr`, and the `nat` table listing read by the removal path. -/
structure PortForwardEnv where
  registryIds : List String
  publicIp : String
  vmIp : String → String
  natListing : List NftRule

/-- Result of `port_forward`: an early-return or status message, or a raised
`VMMError`. -/
inductive PortForwardResult where
  | message (s : String)
  | raised (e : PyErr)
  deriving DecidableEq, Repr

/-- `MicroVM.port_forward`: kwargs guard, registry checks, IP resolution, then
either `delete_port_forward(host_ip, host_port, dest_ip, dest_port)` (remove) or
the call of line 427, `add_port_forward(id, host_ip, host_port, dest_ip,
dest_port)` - positional against the Python signature `(host_ip, host_port,
dest_ip, dest_port, protocol)`.  Returns the result, the JSON objects submitted
by the add path, and the delete commands issued by the remove path. -/
def microvm_port_forward (env : PortForwardEnv) (selfId : String) (id? : Option String)
    (host_port dest_port : PyVal) (rm : Bool) (kwargs : List (String × PyVal)) :
    PortForwardResult × List NftObject × List NetAction :=
  match kwargs with
  | (k, _) :: _ => (.message s!"Got an unexpected keyword argument {k}", [], [])
  | [] =>
    if env.registryIds.isEmpty then (.message "No VMMs available to forward ports", [], [])
    else
      let id := id?.getD selfId
      if !env.registryIds.contains id then
        (.message s!"VMM with ID {id} does not exist", [], [])
      else
        let host_ip := env.publicIp
        let dest_ip := env.vmIp id
        if rm then
          let r := delete_port_forward env.natListing (.str host_ip) host_port
            (.str dest_ip) dest_port
          (.message
              s!"Port forwarding rule removed: {host_ip}:{pyStr host_port} -> {dest_ip}:{pyStr dest_port}",
            [], r.2)
        else
          let objs := add_port_forward (.str id) (.str host_ip) host_port (.str dest_ip) dest_port
          (.message
              s!"Port forwarding active: {host_ip}:{pyStr host_port} -> {dest_ip}:{pyStr dest_port}",
            objs, [])

/-! ## Shared helper lemmas -/

/-- `pySetattr` on a present key preserves the attribute-name list. -/
theorem pySetattr_keys (obj : List (String × PyVal)) (k : String) (v : PyVal)
    (h : pyHasattr obj k = true) :
    (pySetattr obj k v).map Prod.fst = obj.map Prod.fst := by
  unfold pySetattr
  rw [h]
  simp only [if_true, List.map_map]
  apply List.map_congr_left
  intro kv _
  by_cases hk : kv.1 = k <;> simp [hk]

/-- `pyHasattr` depends only on the attribute-name list. -/
theorem pyHasattr_keys (obj : List (String × PyVal)) (k : String) :
    pyHasattr obj k = (obj.map Prod.fst).any (fun s => s == k) := by
  unfold pyHasattr
  induction obj with
  | nil => rfl
  | cons x xs ih => simp [List.any_cons, ih]

/-- The guarded kwargs merge never changes the attribute-name list: `setattr` is
only reached behind `hasattr`, so no attribute is ever added. -/
theorem applyKwargs_keys (kw : List (String × PyVal)) (cfg : List (String × PyVal)) :
    (applyKwargs cfg kw).map Prod.fst = cfg.map Prod.fst := by
  induction kw generalizing cfg with
  | nil => rfl
  | cons kv kw ih =>
    unfold applyKwargs
    rw [List.foldl_cons]
    by_cases h : pyHasattr cfg kv.1
    · simp only [h, if_true]
      rw [show List.foldl _ (pySetattr cfg kv.1 kv.2) kw =
        applyKwargs (pySetattr cfg kv.1 kv.2) kw from rfl]
      rw [ih, pySetattr_keys _ _ _ h]
    · simp only [h, if_false]
      exact ih cfg

/-- An attribute exists after the kwargs merge exactly when it existed before. -/
theorem pyHasattr_applyKwargs (cfg kw : List (String × PyVal)) (k : String) :
    pyHasattr (applyKwargs cfg kw) k = pyHasattr cfg k := by
  rw [pyHasattr_keys, pyHasattr_keys, applyKwargs_keys]

/-- `getattr` on an absent attribute is an `AttributeError`. -/
theorem pyGetattrConfig_error (obj : List (String × PyVal)) (k : String)
    (h : pyHasattr obj k = false) :
    pyGetattrConfig obj k =
      .error (.attributeError s!"MicroVMConfig object has no attribute {k}") := by
  unfold pyGetattrConfig
  have hfind : obj.find? (fun kv => kv.1 == k) = Option.none := by
    rw [List.find?_eq_none]
    intro x hx
    unfold pyHasattr at h
    rw [List.any_eq_false] at h
    simpa using h x hx
  rw [hfind]

/-- `getattr` on a present attribute returns some value. -/
theorem pyGetattrConfig_ok (obj : List (String × PyVal)) (k : String)
    (h : pyHasattr obj k = true) :
    ∃ v, pyGetattrConfig obj k = .ok v := by
  unfold pyGetattrConfig
  unfold pyHasattr at h
  rw [List.any_eq_true] at h
  obtain ⟨x, hx, hk⟩ := h
  have hs : (obj.find? (fun kv => kv.1 == k)).isSome := by
    rw [List.find?_isSome]
    exact ⟨x, hx, hk⟩
  obtain ⟨v, hv⟩ := Option.isSome_iff_exists.mp hs
  exact ⟨v.2, by rw [hv]⟩

/-- A fold over rules none of which matches leaves the handle accumulator
unchanged. -/
theorem pf_handles_none (listing : List NftRule) (hip hp dip dp : PyVal)
    (hm : ∀ r ∈ listing, preroutingMatches r hip hp dip dp = false ∧
      postroutingMatches r dip = false) :
    get_port_forward_handles listing hip hp dip dp = (Option.none, Option.none) := by
  unfold get_port_forward_handles
  induction listing with
  | nil => rfl
  | cons r rs ih =>
    rw [List.foldl_cons]
    have h1 := (hm r (by simp)).1
    have h2 := (hm r (by simp)).2
    rw [h1]
    simp only [if_false, Bool.false_eq_true]
    rw [h2]
    simp only [if_false, Bool.false_eq_true]
    exact ih (fun r hr => hm r (by simp [hr]))

/-! ## Concrete demonstration environments -/

/-- A host with no tap devices. -/
def netEnvNoTaps : NetEnv := ⟨fun _ => false⟩

/-- A registry with one VM `abc12345` whose IP is `172.16.0.2`, a host whose
public IP is `203.0.113.5`, and an empty `nat` listing. -/
def pfEnvDemo : PortForwardEnv := ⟨["abc12345"], "203.0.113.5", fun _ => "172.16.0.2", []⟩

/-- The prerouting rule that `port_forward("abc12345", 8080, 80)` actually
submits under `pfEnvDemo`: every argument is shifted one position against the
`add_port_forward` signature, so the id lands in `daddr`, the host IP in
`dport`, the host port in the DNAT address and the VM IP in the DNAT port. -/
def shiftedPreroutingRule : NftRule :=
  { family := "ip", table := "nat", chain := "prerouting", handle := 13,
    expr := [ .matchPayload "==" (.str "ip") "daddr" (.str "abc12345"),
              .matchPayload "==" (.int 80) "dport" (.str "203.0.113.5"),
              .dnat (.int 8080) (.str "172.16.0.2") ] }

/-- A benign construction environment: default interface `eth0`, kernel and
rootfs files present, `inet_aton` accepting everything it is shown. -/
def initEnvDemo : InitEnv := ⟨"eth0", true, true, fun _ => true⟩

/-- A `filter`-table FORWARD rule (as `add_nat_rules` creates), which is not a
port-forward rule for any mapping. -/
def demoFilterRule : NftRule :=
  { family := "ip", table := "filter", chain := "FORWARD", handle := 5,
    expr := [ .matchMeta "==" "iifname" (.str "tap_abc12345"),
              .matchMeta "==" "oifname" (.str "eth0"),
              .counter, .accept ] }

/-! ## Claim theorems -/

/-- C1: for every id and every kwargs combination, `MicroVM.__init__` raises an
`AttributeError` (at line 67 when `base_rootfs` is not a string, otherwise at the
line-72 read of `vcpu_count`, which `MicroVMConfig` does not define and which the
`hasattr`-guarded merge can never introduce); construction never completes, so no
lifecycle method is reachable on a constructed instance (the result is never
`.ok`), and neither the validation block (lines 93-107) nor any spawn is
reached. -/
theorem microvm_init_always_attribute_error (env : InitEnv) (id : String)
    (kwargs : List (String × PyVal)) :
    ∃ msg, microvmInit env id kwargs = .error (.attributeError msg) := by
  obtain ⟨vv, hv⟩ := pyGetattrConfig_ok (applyKwargs microVMConfigDefaults kwargs) "verbose"
    (by rw [pyHasattr_applyKwargs]; decide)
  obtain ⟨vd, hd⟩ := pyGetattrConfig_ok (applyKwargs microVMConfigDefaults kwargs) "data_path"
    (by rw [pyHasattr_applyKwargs]; decide)
  obtain ⟨vh, hh⟩ := pyGetattrConfig_ok (applyKwargs microVMConfigDefaults kwargs) "hostname"
    (by rw [pyHasattr_applyKwargs]; decide)
  obtain ⟨vk, hk⟩ := pyGetattrConfig_ok (applyKwargs microVMConfigDefaults kwargs) "kernel_file"
    (by rw [pyHasattr_applyKwargs]; decide)
  obtain ⟨vb, hb⟩ := pyGetattrConfig_ok (applyKwargs microVMConfigDefaults kwargs) "base_rootfs"
    (by rw [pyHasattr_applyKwargs]; decide)
  have hvc := pyGetattrConfig_error (applyKwargs microVMConfigDefaults kwargs) "vcpu_count"
    (by rw [pyHasattr_applyKwargs]; decide)
  unfold microvmInit
  simp only [bind, Except.bind, hv, hd, hh, hk, hb, hvc]
  cases vb with
  | str s =>
    simp only [pure, Except.pure, bind, Except.bind, hvc]
    exact ⟨_, rfl⟩
  | int n => exact ⟨_, rfl⟩
  | bool b => exact ⟨_, rfl⟩
  | none => exact ⟨_, rfl⟩
  | prefixV a l => exact ⟨_, rfl⟩

/-- C2: at the failing input (VM id `abc12345`, host port 8080, destination port
80, host IP `203.0.113.5`, VM IP `172.16.0.2`), `port_forward` reports success,
but the prerouting rule it submits matches destination address = the VM id
(shifted into the `host_ip` parameter) rather than the host IP, and DNATs to the
host port rather than to (VM IP, dest port); no submitted rule DNATs to
`(172.16.0.2, 80)` at all. -/
theorem port_forward_installs_shifted_rule :
    (microvm_port_forward pfEnvDemo "abc12345" Option.none (.int 8080) (.int 80) false []).1 =
      .message "Port forwarding active: 203.0.113.5:8080 -> 172.16.0.2:80" ∧
    NftObject.rule shiftedPreroutingRule ∈
      (microvm_port_forward pfEnvDemo "abc12345" Option.none (.int 8080) (.int 80) false []).2.1 ∧
    ((microvm_port_forward pfEnvDemo "abc12345" Option.none (.int 8080) (.int 80) false []).2.1.all
      (fun o => match o with
        | .rule r => !(r.expr.contains (.dnat (.str "172.16.0.2") (.int 80)))
        | _ => true)) = true ∧
    (PyVal.str "abc12345") ≠ (PyVal.str "203.0.113.5") := by
  refine ⟨rfl, by decide, by decide, by decide⟩

/-- C3: for every registered id, `pause(id)` moves that id's registry entries to
`Paused` and `resume(id)` moves them to `Running`, and afterwards every entry's
state is one of the four lifecycle states. -/
theorem pause_resume_transition (reg : List RegistryEntry) (selfId id : String)
    (h : reg.any (fun e => e.id == id) = true) :
    (∃ reg2, microvmPause reg selfId (some id) [] = .updated reg2 ∧
      (∀ e ∈ reg2, e.id = id → e.state = .Paused) ∧
      (∀ e ∈ reg2, e.state = .Configuring ∨ e.state = .Running ∨
        e.state = .Paused ∨ e.state = .Stopped)) ∧
    (∃ reg2, microvmResume reg selfId (some id) [] = .updated reg2 ∧
      (∀ e ∈ reg2, e.id = id → e.state = .Running) ∧
      (∀ e ∈ reg2, e.state = .Configuring ∨ e.state = .Running ∨
        e.state = .Paused ∨ e.state = .Stopped)) := by
  constructor
  · refine ⟨reg.map (fun e => if e.id == id then { e with state := .Paused } else e),
      ?_, ?_, ?_⟩
    · simp [microvmPause, update_vmm_state, h]
    · intro e he heid
      simp only [List.mem_map] at he
      obtain ⟨e0, _, rfl⟩ := he
      by_cases h0 : e0.id = id
      · simp [h0]
      · simp [h0] at heid
    · intro e _
      cases hs : e.state <;> simp
  · refine ⟨reg.map (fun e => if e.id == id then { e with state := .Running } else e),
      ?_, ?_, ?_⟩
    · simp [microvmResume, update_vmm_state, h]
    · intro e he heid
      simp only [List.mem_map] at he
      obtain ⟨e0, _, rfl⟩ := he
      by_cases h0 : e0.id = id
      · simp [h0]
      · simp [h0] at heid
    · intro e _
      cases hs : e.state <;> simp

/-- C3 witness: on the one-entry registry `[("vm1", Running)]`, pausing moves
vm1 to `Paused` and resuming moves it to `Running`. -/
theorem pause_resume_transition_witness :
    ∃ reg2, microvmPause [⟨"vm1", .Running⟩] "vm1" (some "vm1") [] = .updated reg2 ∧
      (∀ e ∈ reg2, e.id = "vm1" → e.state = .Paused) := by
  obtain ⟨r, h1, h2, _⟩ := (pause_resume_transition [⟨"vm1", .Running⟩] "vm1" "vm1"
    (by decide)).1
  exact ⟨r, h1, h2⟩

/-- C4 counterexample: with the spec's concrete values, the metadata-enabled boot
string is not the metadata-disabled string prefixed by the `ds=` fragment - the
source inserts the fragment after `pci=off `, in the middle of the string, not at
its front. -/
theorem boot_args_ds_inserted_not_front :
    boot_args true "169.254.169.254" "172.16.0.2" "172.16.0.1" "fc-vm" "eth0" ≠
      "ds=nocloud-net;s=http://169.254.169.254/latest/ " ++
        boot_args false "169.254.169.254" "172.16.0.2" "172.16.0.1" "fc-vm" "eth0" := by
  decide

/-- C4 amended: the metadata-disabled boot string is exactly the claimed template
(trailing space included), and the metadata-enabled string carries the
`ds=nocloud-net;s=http://<mmds-ip>/latest/ ` fragment inserted between
`pci=off ` and the `ip=` fragment (not prefixed to the whole string). -/
theorem boot_args_template (mmds_ip ip gw host iface : String) :
    boot_args false mmds_ip ip gw host iface =
      "console=ttyS0 reboot=k panic=1 pci=off ip=" ++ ip ++ "::" ++ gw ++
        ":255.255.255.0:" ++ host ++ ":" ++ iface ++ ":off " ∧
    boot_args true mmds_ip ip gw host iface =
      "console=ttyS0 reboot=k panic=1 pci=off ds=nocloud-net;s=http://" ++ mmds_ip ++
        "/latest/ ip=" ++ ip ++ "::" ++ gw ++ ":255.255.255.0:" ++ host ++ ":" ++
        iface ++ ":off " := by
  constructor <;>
    (apply String.ext;
     simp [boot_args, String.data_append, List.append_assoc, ToString.toString])

/-- C5: when the socket file already exists or the id is already listed,
`create()` returns the descriptive conflict message and performs no effect at
all: no spawn, no configuration call, no start, no cleanup of the existing VM
(the action trace is empty). -/
theorem create_conflict_no_side_effects (env : CreateEnv) (selfId : String)
    (mmdsEnabled portForwarding : Bool)
    (h : env.socketExists = true ∨ env.registryIds.contains selfId = true) :
    microvmCreate env selfId [] mmdsEnabled portForwarding =
      (.message s!"VMM with ID {selfId} already exists", []) := by
  have hc : (env.socketExists || env.registryIds.contains selfId) = true := by
    rcases h with h | h <;> simp_all
  unfold microvmCreate
  simp only [hc, if_true]

/-- C5 witness: a second `create()` for `vm1` whose socket file exists returns
the conflict message with an empty action trace. -/
theorem create_conflict_no_side_effects_witness :
    microvmCreate ⟨true, ["vm1"], true⟩ "vm1" [] false false =
      (.message "VMM with ID vm1 already exists", []) :=
  create_conflict_no_side_effects ⟨true, ["vm1"], true⟩ "vm1" false false (Or.inl rfl)

/-- C6: the readiness poll checks the pid first and the socket second on every
attempt; with a live process and a socket that never appears it raises the API
error after exactly three attempts (three pid checks, three socket checks, three
0.5-second sleeps); a dead pid at attempt 0 raises the process error before any
socket check; and a pid found dead at any attempt below 3 raises the process
error. -/
theorem spawn_poll_three_attempts (pidAlive socketExists : Nat → Bool) :
    ((∀ k, pidAlive k = true) → (∀ k, socketExists k = false) →
      spawnPoll pidAlive socketExists =
        (.apiError "Failed to connect to the API socket after 3 attempts",
         [.checkPid 0, .checkSocket 0, .sleepMs 500,
          .checkPid 1, .checkSocket 1, .sleepMs 500,
          .checkPid 2, .checkSocket 2, .sleepMs 500])) ∧
    (pidAlive 0 = false →
      spawnPoll pidAlive socketExists =
        (.processError "Firecracker process is not running", [.checkPid 0])) ∧
    (∀ j, j < 3 → pidAlive j = false → (∀ k, k < j → pidAlive k = true) →
      (∀ k, socketExists k = false) →
      (spawnPoll pidAlive socketExists).1 =
        .processError "Firecracker process is not running") := by
  refine ⟨?_, ?_, ?_⟩
  · intro hp hs
    simp only [spawnPoll]
    rw [spawnPollAux] ; simp [hp, hs]
    rw [spawnPollAux] ; simp [hp, hs]
    rw [spawnPollAux] ; simp [hp, hs]
    rw [spawnPollAux] ; simp [hp, hs]
    rfl
  · intro h0
    simp only [spawnPoll]
    rw [spawnPollAux] ; simp [h0]
  · intro j hj hdead hprev hs
    interval_cases j
    · simp only [spawnPoll]
      rw [spawnPollAux] ; simp [hdead]
    · have h0 := hprev 0 (by omega)
      simp only [spawnPoll]
      rw [spawnPollAux] ; simp [h0, hs]
      rw [spawnPollAux] ; simp [hdead]
    · have h0 := hprev 0 (by omega)
      have h1 := hprev 1 (by omega)
      simp only [spawnPoll]
      rw [spawnPollAux] ; simp [h0, hs]
      rw [spawnPollAux] ; simp [h1, hs]
      rw [spawnPollAux] ; simp [hdead]

/-- C6 witness: with a never-appearing socket and a live process the poll fails
with the API error after exactly three attempts, and with a dead process it
fails with the process error at the first attempt. -/
theorem spawn_poll_three_attempts_witness :
    spawnPoll (fun _ => true) (fun _ => false) =
      (.apiError "Failed to connect to the API socket after 3 attempts",
       [.checkPid 0, .checkSocket 0, .sleepMs 500,
        .checkPid 1, .checkSocket 1, .sleepMs 500,
        .checkPid 2, .checkSocket 2, .sleepMs 500]) ∧
    spawnPoll (fun _ => false) (fun _ => true) =
      (.processError "Firecracker process is not running", [.checkPid 0]) :=
  ⟨(spawn_poll_three_attempts (fun _ => true) (fun _ => false)).1
      (fun _ => rfl) (fun _ => rfl),
   (spawn_poll_three_attempts (fun _ => false) (fun _ => true)).2.1 rfl⟩

/-- C7 counterexample: the unrecognized key `foo` is silently dropped by the
merge (the merged configuration equals the defaults), and construction behaves
exactly as with no kwargs at all - failing with the line-67 `AttributeError`
about `NoneType`, which does not name `foo`; nothing rejects the key. -/
theorem unknown_kwarg_ignored_concrete :
    applyKwargs microVMConfigDefaults [("foo", .int 1)] = microVMConfigDefaults ∧
    microvmInit initEnvDemo "vm1" [("foo", .int 1)] = microvmInit initEnvDemo "vm1" [] ∧
    microvmInit initEnvDemo "vm1" [("foo", .int 1)] =
      .error (.attributeError "NoneType object has no attribute replace") := by
  refine ⟨by decide, rfl, rfl⟩

/-- C7 amended: a keyword argument whose name is not a `MicroVMConfig` attribute
is silently ignored: the merge leaves the configuration exactly as without it,
and the whole construction outcome is unchanged; no error naming the key is
raised. -/
theorem unknown_kwargs_silently_ignored (env : InitEnv) (id k : String) (v : PyVal)
    (kw : List (String × PyVal)) (h : pyHasattr microVMConfigDefaults k = false) :
    applyKwargs microVMConfigDefaults (kw ++ [(k, v)]) =
      applyKwargs microVMConfigDefaults kw ∧
    microvmInit env id (kw ++ [(k, v)]) = microvmInit env id kw := by
  have h1 : applyKwargs microVMConfigDefaults (kw ++ [(k, v)]) =
      applyKwargs microVMConfigDefaults kw := by
    unfold applyKwargs
    rw [List.foldl_append, List.foldl_cons, List.foldl_nil]
    have h2 : pyHasattr (List.foldl
        (fun c kv => if pyHasattr c kv.1 then pySetattr c kv.1 kv.2 else c)
        microVMConfigDefaults kw) k = false := by
      rw [show (List.foldl _ microVMConfigDefaults kw) =
        applyKwargs microVMConfigDefaults kw from rfl]
      rw [pyHasattr_applyKwargs]
      exact h
    simp only [h2, if_false, Bool.false_eq_true]
  refine ⟨h1, ?_⟩
  unfold microvmInit
  rw [h1]

/-- C7 witness: the amended statement at the concrete key `foo` on top of empty
kwargs. -/
theorem unknown_kwargs_silently_ignored_witness :
    applyKwargs microVMConfigDefaults [("foo", .int 1)] =
      applyKwargs microVMConfigDefaults [] ∧
    microvmInit initEnvDemo "vm1" [("foo", .int 1)] = microvmInit initEnvDemo "vm1" [] :=
  unknown_kwargs_silently_ignored initEnvDemo "vm1" "foo" (.int 1) [] (by decide)

/-- C9 counterexample: a 22-character tap name with a valid `iface_name` passes
the guard untouched - `create_tap` raises no configuration error and proceeds to
create the device (the trace contains the link-add), because the length check of
line 752 inspects only `iface_name`, never the tap name. -/
theorem create_tap_long_tap_name_not_rejected :
    (create_tap netEnvNoTaps "tap_0123456789abcdefgh" "eth0" "172.16.0.1" false).1 =
      .ok () ∧
    "tap_0123456789abcdefgh".length > 16 ∧
    NetAction.linkAdd "tap_0123456789abcdefgh" ∈
      (create_tap netEnvNoTaps "tap_0123456789abcdefgh" "eth0" "172.16.0.1" false).2 :=
  ⟨rfl, by decide, by decide⟩

/-- C9 amended: only the derived interface identifier is length-checked: for
every `iface_name` longer than 16 characters (and a nonempty tap name),
`create_tap` raises an error before any host mutation (empty trace) - though a
`ValueError`, not the library's `ConfigurationError`; tap names themselves are
never length-checked (see the counterexample). -/
theorem create_tap_long_iface_rejected (env : NetEnv) (name iface gw bn : String)
    (bridge : Bool) (hn : name.isEmpty = false) (hl : iface.length > 16) :
    create_tap env name iface gw bridge bn =
      (.error (.valueError "iface_name must not exceed 16 characters"), []) := by
  have hne : iface.isEmpty = false := by
    cases hq : iface.isEmpty
    · rfl
    · rw [String.isEmpty_iff] at hq
      subst hq
      simp at hl
  unfold create_tap
  simp [hn, hne, hl]

/-- C9 witness: a 17-character `iface_name` is rejected with the `ValueError`
and an empty mutation trace. -/
theorem create_tap_long_iface_rejected_witness :
    create_tap netEnvNoTaps "tap_abc" "abcdefghijklmnopq" "172.16.0.1" false "docker0" =
      (.error (.valueError "iface_name must not exceed 16 characters"), []) :=
  create_tap_long_iface_rejected netEnvNoTaps "tap_abc" "abcdefghijklmnopq" "172.16.0.1"
    "docker0" false (by decide) (by decide)

/-- C10: deleting absent network state is a successful no-op: `delete_tap` on a
name with no tap device issues no command and raises nothing, and
`delete_port_forward` for a mapping matched by no rule in the listing returns
without issuing any delete command and without error. -/
theorem teardown_noop (env : NetEnv) (name : String) (listing : List NftRule)
    (hip hp dip dp : PyVal)
    (ht : env.tapExists name = false)
    (hm : ∀ r ∈ listing, preroutingMatches r hip hp dip dp = false ∧
      postroutingMatches r dip = false) :
    delete_tap env name = (.ok (), []) ∧
    delete_port_forward listing hip hp dip dp = (.ok (), []) := by
  constructor
  · simp [delete_tap, ht]
  · have h := pf_handles_none listing hip hp dip dp hm
    simp [delete_port_forward, h]

/-- C10 witness: on a host with no taps and a listing holding only an unrelated
filter rule, both deletions are no-ops. -/
theorem teardown_noop_witness :
    delete_tap netEnvNoTaps "tap_abc12345" = (.ok (), []) ∧
    delete_port_forward [demoFilterRule] (.str "203.0.113.5") (.int 8080)
      (.str "172.16.0.2") (.int 80) = (.ok (), []) :=
  teardown_noop netEnvNoTaps "tap_abc12345" [demoFilterRule] (.str "203.0.113.5")
    (.int 8080) (.str "172.16.0.2") (.int 80) rfl (by decide)

/-! ## Gateway-derivation lemmas (C8) -/

/-- Clearing the low octet: `n & 0xFFFFFF00` keeps bits 8-31. -/
theorem land_mask (n : Nat) : n &&& 0xFFFFFF00 = n / 256 % 16777216 * 256 := by
  have h1 : (0xFFFFFF00 : Nat) = (2 ^ 24 - 1) <<< 8 := by norm_num [Nat.shiftLeft_eq]
  have h2 : n / 256 % 16777216 * 256 = ((n >>> 8) % 2 ^ 24) <<< 8 := by
    rw [Nat.shiftRight_eq_div_pow, Nat.shiftLeft_eq]
    norm_num
  rw [h1, h2]
  apply Nat.eq_of_testBit_eq
  intro i
  simp only [Nat.testBit_and, Nat.testBit_shiftLeft, Nat.testBit_two_pow_sub_one,
    Nat.testBit_mod_two_pow, Nat.testBit_shiftRight]
  by_cases h8 : 8 ≤ i
  · have he : 8 + (i - 8) = i := by omega
    rw [he]
    by_cases h24 : i - 8 < 24
    · simp [h8, h24, Bool.and_comm]
    · simp [h8, h24]
  · simp [h8]

/-- The masked-or of the source, `(int(ip) & 0xFFFFFF00) | 1`, replaces the last
octet by 1. -/
theorem ipv4_gateway_val (n : Nat) :
    (n &&& 0xFFFFFF00) ||| 1 = n / 256 % 16777216 * 256 + 1 := by
  rw [land_mask]
  rw [show n / 256 % 16777216 * 256 = 2 ^ 8 * (n / 256 % 16777216) from by ring]
  exact (Nat.mul_add_lt_is_or (by norm_num) _).symm

/-- A parsed octet is at most 255. -/
theorem parseOctet_le (s : List Char) (v : Nat) (h : parseOctet s = some v) : v ≤ 255 := by
  unfold parseOctet at h
  split_ifs at h; all_goals simp_all; omega

/-- A parsed IPv4 address is below 2^32. -/
theorem parseIPv4_lt (s : List Char) (n : Nat) (h : parseIPv4 s = some n) :
    n < 4294967296 := by
  unfold parseIPv4 at h
  split at h
  · rename_i a b c d
    split at h
    · rename_i x y z w hx hy hz hw
      injection h with h
      have ha := parseOctet_le _ _ hx
      have hbb := parseOctet_le _ _ hy
      have hc := parseOctet_le _ _ hz
      have hd := parseOctet_le _ _ hw
      omega
    · exact absurd h (by simp)
  · exact absurd h (by simp)

/-- Hex digit characters are in the hextet alphabet. -/
theorem hexChar_isHex : ∀ d, d < 16 → isPyHexDigit (hexChar d) = true := by decide

/-- `hexVal` inverts `hexChar` on digit values. -/
theorem hexVal_hexChar : ∀ d, d < 16 → hexVal (hexChar d) = d := by decide

/-- No hex digit character is a colon. -/
theorem hexChar_ne_colon : ∀ d, d < 16 → ¬(hexChar d = ':') := by decide

/-- A `%04x` group is nonempty. -/
theorem hex4_isEmpty (g : Nat) : (hex4 g).isEmpty = false := rfl

/-- A `%04x` group contains no colon. -/
theorem hex4_no_colon (g : Nat) : ':' ∉ hex4 g := by
  unfold hex4
  intro hmem
  have m3 : g / 4096 % 16 < 16 := Nat.mod_lt _ (by norm_num)
  have m2 : g / 256 % 16 < 16 := Nat.mod_lt _ (by norm_num)
  have m1 : g / 16 % 16 < 16 := Nat.mod_lt _ (by norm_num)
  have m0 : g % 16 < 16 := Nat.mod_lt _ (by norm_num)
  simp only [List.mem_cons, List.not_mem_nil, or_false] at hmem
  rcases hmem with h | h | h | h <;>
    [exact hexChar_ne_colon _ m3 h.symm;
     exact hexChar_ne_colon _ m2 h.symm;
     exact hexChar_ne_colon _ m1 h.symm;
     exact hexChar_ne_colon _ m0 h.symm]

/-- Parsing a `%04x` group recovers its value. -/
theorem parseHextet_hex4 (g : Nat) (hg : g < 65536) : parseHextet (hex4 g) = some g := by
  have m3 : g / 4096 % 16 < 16 := Nat.mod_lt _ (by norm_num)
  have m2 : g / 256 % 16 < 16 := Nat.mod_lt _ (by norm_num)
  have m1 : g / 16 % 16 < 16 := Nat.mod_lt _ (by norm_num)
  have m0 : g % 16 < 16 := Nat.mod_lt _ (by norm_num)
  unfold parseHextet hex4
  have hall : ([hexChar (g / 4096 % 16), hexChar (g / 256 % 16), hexChar (g / 16 % 16),
      hexChar (g % 16)].all isPyHexDigit) = true := by
    simp [List.all_cons, hexChar_isHex _ m3, hexChar_isHex _ m2,
      hexChar_isHex _ m1, hexChar_isHex _ m0]
  rw [hall]
  simp only [Bool.not_true, List.length_cons, List.length_nil, List.isEmpty_cons,
    if_false, Bool.false_eq_true, reduceIte]
  rw [show ([hexChar (g / 4096 % 16), hexChar (g / 256 % 16), hexChar (g / 16 % 16),
      hexChar (g % 16)].foldl (fun a c => a * 16 + hexVal c) 0) =
    ((hexVal (hexChar (g / 4096 % 16)) * 16 + hexVal (hexChar (g / 256 % 16))) * 16 +
      hexVal (hexChar (g / 16 % 16))) * 16 + hexVal (hexChar (g % 16)) from by
    simp [List.foldl]]
  rw [hexVal_hexChar _ m3, hexVal_hexChar _ m2, hexVal_hexChar _ m1, hexVal_hexChar _ m0]
  rw [if_neg (by norm_num)]
  congr 1
  have k1 : g % 4096 / 256 = g / 256 % 16 := Nat.mod_mul_right_div_self g 256 16
  have k2 : g % 256 / 16 = g / 16 % 16 := Nat.mod_mul_right_div_self g 16 16
  have k3 : g % 4096 % 256 = g % 256 := Nat.mod_mod_of_dvd g (by norm_num)
  have k4 : g % 256 % 16 = g % 16 := Nat.mod_mod_of_dvd g (by norm_num)
  have k5 : g / 4096 % 16 = g / 4096 := Nat.mod_eq_of_lt (by omega)
  have d1 : g = g / 4096 * 4096 + g % 4096 := by omega
  have d2 : g % 4096 = g % 4096 / 256 * 256 + g % 4096 % 256 := by omega
  have d3 : g % 256 = g % 256 / 16 * 16 + g % 256 % 16 := by omega
  omega

/-- Masking with `0xFFFF` is reduction modulo 2^16. -/
theorem and_ffff (x : Nat) : x &&& 0xFFFF = x % 65536 := by
  have h := Nat.and_pow_two_sub_one_eq_mod x 16
  norm_num at h
  exact h

/-- The hextet-accumulation step `(acc << 16) | h` is plain arithmetic for
in-range hextets. -/
theorem shiftLor (a h : Nat) (hh : h < 65536) : (a <<< 16) ||| h = a * 65536 + h := by
  rw [Nat.shiftLeft_eq]
  rw [show a * 2 ^ 16 = 2 ^ 16 * a from by ring]
  have hor := (Nat.mul_add_lt_is_or (show h < 2 ^ 16 by omega) a).symm
  rw [hor]
  ring

/-- Parsing the single-character group `"1"` gives 1. -/
theorem parseHextet_one : parseHextet ['1'] = some 1 := by decide

/-- The eight exploded groups, written out. -/
theorem explodedSegments_eq (n : Nat) :
    explodedSegments n =
      [hex4 (n >>> 112 &&& 0xFFFF), hex4 (n >>> 96 &&& 0xFFFF),
       hex4 (n >>> 80 &&& 0xFFFF), hex4 (n >>> 64 &&& 0xFFFF),
       hex4 (n >>> 48 &&& 0xFFFF), hex4 (n >>> 32 &&& 0xFFFF),
       hex4 (n >>> 16 &&& 0xFFFF), hex4 (n >>> 0 &&& 0xFFFF)] := by
  simp [explodedSegments, List.range_succ]

/-- Splitting the joined exploded form recovers the eight groups. -/
theorem exploded_split (n : Nat) :
    (List.intercalate [':'] (explodedSegments n)).splitOn ':' = explodedSegments n := by
  apply List.splitOn_intercalate
  · intro l hl
    unfold explodedSegments at hl
    simp only [List.mem_map] at hl
    obtain ⟨i, _, rfl⟩ := hl
    exact hex4_no_colon _
  · rw [explodedSegments_eq]
    simp

/-- Re-parsing the exploded form with its last group overwritten by `"1"` yields
the address with last hextet 1 and the upper hextets preserved. -/
theorem parse_replaced (n : Nat) (hn : n < 2 ^ 128) :
    parseIPv6 (List.intercalate [':']
      [hex4 (n >>> 112 &&& 0xFFFF), hex4 (n >>> 96 &&& 0xFFFF), hex4 (n >>> 80 &&& 0xFFFF),
       hex4 (n >>> 64 &&& 0xFFFF), hex4 (n >>> 48 &&& 0xFFFF), hex4 (n >>> 32 &&& 0xFFFF),
       hex4 (n >>> 16 &&& 0xFFFF), ['1']]) = some (n / 65536 * 65536 + 1) := by
  have hne : (List.intercalate [':']
      [hex4 (n >>> 112 &&& 0xFFFF), hex4 (n >>> 96 &&& 0xFFFF), hex4 (n >>> 80 &&& 0xFFFF),
       hex4 (n >>> 64 &&& 0xFFFF), hex4 (n >>> 48 &&& 0xFFFF), hex4 (n >>> 32 &&& 0xFFFF),
       hex4 (n >>> 16 &&& 0xFFFF), ['1']]).isEmpty = false := by
    simp [List.intercalate, List.intersperse, hex4]
  have hsplit : (List.intercalate [':']
      [hex4 (n >>> 112 &&& 0xFFFF), hex4 (n >>> 96 &&& 0xFFFF), hex4 (n >>> 80 &&& 0xFFFF),
       hex4 (n >>> 64 &&& 0xFFFF), hex4 (n >>> 48 &&& 0xFFFF), hex4 (n >>> 32 &&& 0xFFFF),
       hex4 (n >>> 16 &&& 0xFFFF), ['1']]).splitOn ':' =
      [hex4 (n >>> 112 &&& 0xFFFF), hex4 (n >>> 96 &&& 0xFFFF), hex4 (n >>> 80 &&& 0xFFFF),
       hex4 (n >>> 64 &&& 0xFFFF), hex4 (n >>> 48 &&& 0xFFFF), hex4 (n >>> 32 &&& 0xFFFF),
       hex4 (n >>> 16 &&& 0xFFFF), ['1']] := by
    apply List.splitOn_intercalate
    · intro l hl
      simp only [List.mem_cons, List.not_mem_nil, or_false] at hl
      rcases hl with h|h|h|h|h|h|h|h <;> subst h
      all_goals first
      | exact hex4_no_colon _
      | decide
    · simp
  unfold parseIPv6
  rw [hne]
  simp only [Bool.false_eq_true, if_false]
  rw [hsplit]
  unfold parseIPv6Parts
  simp only [List.length_cons, List.length_nil]
  norm_num
  rw [if_neg (by decide : ¬('.' = '1'))]
  show foldHextets 0
      [hex4 (n >>> 112 &&& 0xFFFF), hex4 (n >>> 96 &&& 0xFFFF), hex4 (n >>> 80 &&& 0xFFFF),
       hex4 (n >>> 64 &&& 0xFFFF), hex4 (n >>> 48 &&& 0xFFFF), hex4 (n >>> 32 &&& 0xFFFF),
       hex4 (n >>> 16 &&& 0xFFFF), ['1']] = some (n / 65536 * 65536 + 1)
  have hb : ∀ k, n >>> k &&& 0xFFFF < 65536 := by
    intro k
    rw [and_ffff]
    exact Nat.mod_lt _ (by norm_num)
  simp only [foldHextets, parseHextet_hex4 _ (hb 112), parseHextet_hex4 _ (hb 96),
    parseHextet_hex4 _ (hb 80), parseHextet_hex4 _ (hb 64), parseHextet_hex4 _ (hb 48),
    parseHextet_hex4 _ (hb 32), parseHextet_hex4 _ (hb 16), parseHextet_one]
  rw [shiftLor 0 _ (hb 112)]
  rw [shiftLor _ _ (hb 96), shiftLor _ _ (hb 80), shiftLor _ _ (hb 64),
    shiftLor _ _ (hb 48), shiftLor _ _ (hb 32), shiftLor _ _ (hb 16),
    shiftLor _ 1 (by norm_num)]
  simp only [and_ffff, Option.some.injEq]
  omega

/-- C8: `get_gateway_ip` maps every address the stdlib accepts as IPv4 to the
same address with its last octet replaced by 1 (the printed gateway is the
formatted value `n / 256 * 256 + 1`, whose last octet is 1 and whose upper
octets are those of the input); maps every address it accepts as IPv6 to the
address with its final 16-bit segment replaced by 1 (the formatted value
`n / 65536 * 65536 + 1`, last hextet 1, upper hextets preserved); and raises a
`NetworkError` on every input neither parser accepts. -/
theorem gateway_derivation (s : String) :
    (∀ n, parseIPv4 s.data = some n →
      get_gateway_ip s = .ok (formatIPv4 (n / 256 * 256 + 1)) ∧
      (n / 256 * 256 + 1) % 256 = 1 ∧ (n / 256 * 256 + 1) / 256 = n / 256) ∧
    (∀ n, parseIPv4 s.data = Option.none → parseIPv6 s.data = some n → n < 2 ^ 128 →
      get_gateway_ip s = .ok ⟨formatIPv6 (n / 65536 * 65536 + 1)⟩ ∧
      (n / 65536 * 65536 + 1) % 65536 = 1 ∧
      (n / 65536 * 65536 + 1) / 65536 = n / 65536) ∧
    (parseIPv4 s.data = Option.none → parseIPv6 s.data = Option.none →
      ∃ msg, get_gateway_ip s = .error (.networkError msg)) := by
  refine ⟨?_, ?_, ?_⟩
  · intro n h4
    have hlt := parseIPv4_lt _ _ h4
    have hm : n / 256 % 16777216 = n / 256 := Nat.mod_eq_of_lt (by omega)
    unfold get_gateway_ip
    simp only [h4]
    rw [ipv4_gateway_val, hm]
    exact ⟨rfl, by omega, by omega⟩
  · intro n h4 h6 hn
    unfold get_gateway_ip
    simp only [h4, h6]
    simp only [exploded_split]
    simp only [explodedSegments_eq]
    rw [show ([hex4 (n >>> 112 &&& 0xFFFF), hex4 (n >>> 96 &&& 0xFFFF),
       hex4 (n >>> 80 &&& 0xFFFF), hex4 (n >>> 64 &&& 0xFFFF),
       hex4 (n >>> 48 &&& 0xFFFF), hex4 (n >>> 32 &&& 0xFFFF),
       hex4 (n >>> 16 &&& 0xFFFF), hex4 (n >>> 0 &&& 0xFFFF)] : List (List Char)).dropLast ++
        [['1']] =
      [hex4 (n >>> 112 &&& 0xFFFF), hex4 (n >>> 96 &&& 0xFFFF),
       hex4 (n >>> 80 &&& 0xFFFF), hex4 (n >>> 64 &&& 0xFFFF),
       hex4 (n >>> 48 &&& 0xFFFF), hex4 (n >>> 32 &&& 0xFFFF),
       hex4 (n >>> 16 &&& 0xFFFF), ['1']] from rfl]
    simp only [parse_replaced n hn]
    exact ⟨trivial, by omega, by omega⟩
  · intro h4 h6
    unfold get_gateway_ip
    simp only [h4, h6]
    exact ⟨_, rfl⟩

/-- C8 witness: the concrete examples of the claim - `172.16.0.2` maps to
`172.16.0.1`, `10.5.3.77` to `10.5.3.1`, `fd00::abcd` to `fd00::1`, and the
malformed `256.1.1.1` raises a `NetworkError`. -/
theorem gateway_derivation_witness :
    get_gateway_ip "172.16.0.2" = .ok "172.16.0.1" ∧
    get_gateway_ip "10.5.3.77" = .ok "10.5.3.1" ∧
    get_gateway_ip "fd00::abcd" = .ok "fd00::1" ∧
    (∃ msg, get_gateway_ip "256.1.1.1" = .error (.networkError msg)) := by
  refine ⟨?_, ?_, ?_, ?_⟩
  · have h := (gateway_derivation "172.16.0.2").1 2886729730 (by decide)
    exact h.1.trans (congrArg Except.ok (by decide))
  · have h := (gateway_derivation "10.5.3.77").1 168100685 (by decide)
    exact h.1.trans (congrArg Except.ok (by decide))
  · have h := (gateway_derivation "fd00::abcd").2.1 336294682933583715844663186250927221709
      (by decide) (by decide) (by decide)
    exact h.1.trans (congrArg Except.ok (by decide))
  · exact (gateway_derivation "256.1.1.1").2.2 (by decide) (by decide)
